import Mathlib

/-!
Verification of the usage-metrics accounting and reporting subsystem
(`metrics/tracker.py`, `reports/generator.py`, `config/settings.py`).

Python floats are modelled as exact rationals (`ℚ`), Python ints as `ℤ`,
Python strings as `String`.  `round(x, n)` is modelled by `pyRound`
(round-half-to-even, Python's rounding mode).  Dictionaries are modelled
as association lists looked up with `dictLookup` (first match), which on
the nodup-key dictionaries built by the code agrees with Python `dict`.
-/

/-- Round a rational to the nearest integer, ties to even
(the rounding mode of Python's builtin `round`). -/
def roundHalfEven (q : ℚ) : ℤ :=
  let f := ⌊q⌋
  let r := q - f
  if r < 1/2 then f
  else if 1/2 < r then f + 1
  else if f % 2 = 0 then f else f + 1

/-- Model of Python `round(q, n)`: round `q` to `n` decimal places. -/
def pyRound (q : ℚ) (n : ℕ) : ℚ :=
  (roundHalfEven (q * 10 ^ n) : ℚ) / 10 ^ n

/-- First-match lookup in an association list; models Python `dict`
indexing/membership for the dictionaries built by this code (whose keys
are unique). -/
def dictLookup {α : Type} (l : List (String × α)) (k : String) : Option α :=
  match l with
  | [] => none
  | p :: t => if p.1 = k then some p.2 else dictLookup t k

/-- Per-1000-token rates of one pricing table entry
(`{"input": ..., "output": ...}` in `config/settings.py`). -/
structure Rates where
  input : ℚ
  output : ℚ
deriving Repr, DecidableEq

/-- `Settings.PRICING` from `config/settings.py`, rates as exact
rationals (0.0025 = 25/10000, etc.). -/
def PRICING : List (String × Rates) :=
  [("gpt-4o", { input := 25/10000, output := 1/100 }),
   ("gpt-4o-mini", { input := 15/100000, output := 6/10000 }),
   ("gpt-3.5-turbo", { input := 5/10000, output := 15/10000 })]

/-- `RequestMetrics` dataclass from `metrics/tracker.py`. -/
structure RequestMetrics where
  latency_seconds : ℚ
  input_tokens : ℤ
  output_tokens : ℤ
  total_tokens : ℤ
  estimated_cost_usd : ℚ
  finish_reason : String
  timestamp : String
  model : String
deriving Repr, DecidableEq

/-- The mutable state of a `MetricsTracker` instance:
`self.start_time` (an `Option`al wall-clock instant) and
`self.metrics_history` (a list of records). -/
structure MetricsTracker where
  start_time : Option ℚ
  metrics_history : List RequestMetrics
deriving Repr, DecidableEq

/-- A fresh tracker, as built by `MetricsTracker.__init__`. -/
def MetricsTracker.init : MetricsTracker :=
  { start_time := none, metrics_history := [] }

/-- `MetricsTracker.start`: stores the current wall-clock instant `now`
in the tracker's (single, shared) `start_time` slot. -/
def MetricsTracker.start (t : MetricsTracker) (now : ℚ) : MetricsTracker :=
  { t with start_time := some now }

/-- `MetricsTracker.calculate_latency` evaluated at wall-clock instant
`now`: `0.0` if no timer was started, else `round(now - start_time, 3)`. -/
def MetricsTracker.calculate_latency (t : MetricsTracker) (now : ℚ) : ℚ :=
  match t.start_time with
  | none => 0
  | some s => pyRound (now - s) 3

/-- `MetricsTracker.calculate_cost`: zero for a model absent from
`PRICING`, otherwise `round((input/1000)*input_rate +
(output/1000)*output_rate, 6)`.  Total (never raises). -/
def calculate_cost (model : String) (input_tokens output_tokens : ℤ) : ℚ :=
  match dictLookup PRICING model with
  | none => 0
  | some rates =>
    let input_cost := ((input_tokens : ℚ) / 1000) * rates.input
    let output_cost := ((output_tokens : ℚ) / 1000) * rates.output
    pyRound (input_cost + output_cost) 6

/-- `MetricsTracker.create_metrics` evaluated at wall-clock instant `now`
with current ISO timestamp `ts`: builds the record, appends it to
`metrics_history`, and returns (new state, record). -/
def MetricsTracker.create_metrics (t : MetricsTracker) (model : String)
    (input_tokens output_tokens total_tokens : ℤ) (finish_reason : String)
    (now : ℚ) (ts : String) : MetricsTracker × RequestMetrics :=
  let latency := t.calculate_latency now
  let cost := calculate_cost model input_tokens output_tokens
  let metrics : RequestMetrics :=
    { latency_seconds := latency
      input_tokens := input_tokens
      output_tokens := output_tokens
      total_tokens := total_tokens
      estimated_cost_usd := cost
      finish_reason := finish_reason
      timestamp := ts
      model := model }
  ({ t with metrics_history := t.metrics_history ++ [metrics] }, metrics)

/-- The dictionary returned by `MetricsTracker.get_summary_statistics`
in the non-empty case. -/
structure SummaryStatistics where
  total_requests : ℕ
  total_cost_usd : ℚ
  total_tokens : ℤ
  average_latency_seconds : ℚ
  models_used : List String
deriving Repr, DecidableEq

/-- `MetricsTracker.get_summary_statistics`: `none` models the empty
dict `{}` returned on empty history; `list(set(...))` is modelled by
`dedup` of the model column (a list of the distinct models). -/
def MetricsTracker.get_summary_statistics (t : MetricsTracker) :
    Option SummaryStatistics :=
  if t.metrics_history = [] then none
  else
    let total_requests := t.metrics_history.length
    let total_cost := (t.metrics_history.map (·.estimated_cost_usd)).sum
    let total_tokens := (t.metrics_history.map (·.total_tokens)).sum
    let avg_latency :=
      (t.metrics_history.map (·.latency_seconds)).sum / (total_requests : ℚ)
    some { total_requests := total_requests
           total_cost_usd := pyRound total_cost 6
           total_tokens := total_tokens
           average_latency_seconds := pyRound avg_latency 3
           models_used := (t.metrics_history.map (·.model)).dedup }

/-- One value of the `model_stats` dictionary in
`ReportGenerator.generate_summary_report`:
`{"requests": ..., "total_cost": ..., "total_tokens": ...}`. -/
structure ModelStats where
  requests : ℕ
  total_cost : ℚ
  total_tokens : ℤ
deriving Repr, DecidableEq

/-- One loop-body update of an existing `model_stats` entry:
`requests += 1`, `total_cost += metric.estimated_cost_usd`,
`total_tokens += metric.total_tokens`. -/
def ModelStats.bump (s : ModelStats) (metric : RequestMetrics) : ModelStats :=
  { requests := s.requests + 1
    total_cost := s.total_cost + metric.estimated_cost_usd
    total_tokens := s.total_tokens + metric.total_tokens }

/-- One iteration of the grouping loop in `generate_summary_report`:
insert a zero entry for a model not yet present (Python dict insertion
appends at the end), then update that model's entry in place. -/
def stats_insert (stats : List (String × ModelStats)) (metric : RequestMetrics) :
    List (String × ModelStats) :=
  let stats1 : List (String × ModelStats) :=
    match dictLookup stats metric.model with
    | some _ => stats
    | none => stats ++ [(metric.model, { requests := 0, total_cost := 0, total_tokens := 0 })]
  stats1.map (fun p => if p.1 = metric.model then (p.1, p.2.bump metric) else p)

/-- The `model_stats` dictionary built by the grouping loop of
`generate_summary_report` over the whole history. -/
def model_stats (metrics_history : List RequestMetrics) : List (String × ModelStats) :=
  metrics_history.foldl stats_insert []

/-- The `"summary"` sub-dictionary of a non-empty summary report. -/
structure SummarySection where
  total_requests : ℕ
  total_cost_usd : ℚ
  total_tokens : ℤ
  total_input_tokens : ℤ
  total_output_tokens : ℤ
  average_latency_seconds : ℚ
  average_cost_per_request : ℚ
deriving Repr, DecidableEq

/-- The two shapes returned by `ReportGenerator.generate_summary_report`:
the empty-history dict has exactly the keys `error` and `generated_at`;
the non-empty dict has exactly the keys `summary`, `model_breakdown`
and `generated_at`. -/
inductive SummaryReport where
  | empty (error : String) (generated_at : String)
  | full (summary : SummarySection) (model_breakdown : List (String × ModelStats))
      (generated_at : String)
deriving Repr, DecidableEq

/-- `ReportGenerator.generate_summary_report` evaluated with current ISO
timestamp `ts` (the value `datetime.now().isoformat()` produces). -/
def generate_summary_report (metrics_history : List RequestMetrics) (ts : String) :
    SummaryReport :=
  if metrics_history = [] then
    .empty "No metrics data available" ts
  else
    let total_requests := metrics_history.length
    let total_cost := (metrics_history.map (·.estimated_cost_usd)).sum
    let total_tokens := (metrics_history.map (·.total_tokens)).sum
    let total_input_tokens := (metrics_history.map (·.input_tokens)).sum
    let total_output_tokens := (metrics_history.map (·.output_tokens)).sum
    let avg_latency := (metrics_history.map (·.latency_seconds)).sum / (total_requests : ℚ)
    .full
      { total_requests := total_requests
        total_cost_usd := pyRound total_cost 6
        total_tokens := total_tokens
        total_input_tokens := total_input_tokens
        total_output_tokens := total_output_tokens
        average_latency_seconds := pyRound avg_latency 3
        average_cost_per_request := pyRound (total_cost / (total_requests : ℚ)) 6 }
      (model_stats metrics_history) ts

/-- Decimal digits of the fractional part of `q` (with `0 ≤ q < 1`),
trailing zeros omitted, at most `fuel` digits (Python float repr never
shows more than 17 significant digits). -/
def fracDigits (q : ℚ) : ℕ → String
  | 0 => ""
  | n + 1 =>
    if q = 0 then ""
    else toString ⌊q * 10⌋ ++ fracDigits (q * 10 - (⌊q * 10⌋ : ℚ)) n

/-- Model of Python `str()` on a float value: sign, integer part, a dot,
then the fractional digits (at least one digit, so `str(2.0) = "2.0"`). -/
def pyStr (q : ℚ) : String :=
  let sign := if q < 0 then "-" else ""
  let aq := |q|
  let ds := fracDigits (aq - (⌊aq⌋ : ℚ)) 17
  sign ++ toString ⌊aq⌋ ++ "." ++ (if ds = "" then "0" else ds)

/-- The `headers` list of `ReportGenerator.generate_csv_report`. -/
def csv_headers : List String :=
  ["timestamp", "model", "input_tokens", "output_tokens",
   "total_tokens", "latency_seconds", "estimated_cost_usd", "finish_reason"]

/-- One data row of the CSV export: the eight fields of a record, in
the source's fixed order, converted to text and comma-joined. -/
def csv_line (metric : RequestMetrics) : String :=
  String.intercalate ","
    [metric.timestamp, metric.model,
     toString metric.input_tokens, toString metric.output_tokens,
     toString metric.total_tokens,
     pyStr metric.latency_seconds, pyStr metric.estimated_cost_usd,
     metric.finish_reason]

/-- `ReportGenerator.generate_csv_report`: the sentinel string on empty
history, otherwise header row plus one row per record, newline-joined. -/
def generate_csv_report (metrics_history : List RequestMetrics) : String :=
  if metrics_history = [] then "No data available"
  else
    String.intercalate "\n"
      (String.intercalate "," csv_headers :: metrics_history.map csv_line)

/-- Abstract filesystem state: the set of existing directories and the
files, newest write first (`dictLookup` finds the latest content). -/
structure FileSystem where
  dirs : List String
  files : List (String × String)
deriving Repr, DecidableEq

/-- Create one directory if absent (`exist_ok=True`). -/
def insertDir (ds : List String) (d : String) : List String :=
  if d ∈ ds then ds else ds ++ [d]

/-- The chain of ancestor paths of `p` ending with `p` itself, e.g.
`"reports/output"` gives `["reports", "reports/output"]`. -/
def ancestorPaths (p : String) : List String :=
  let comps := p.splitOn "/"
  (List.range comps.length).map (fun i => String.intercalate "/" (comps.take (i + 1)))

/-- `Path.mkdir(parents=True, exist_ok=True)`: create the directory and
every missing ancestor. -/
def mkdir_parents (fs : FileSystem) (d : String) : FileSystem :=
  { fs with dirs := (ancestorPaths d).foldl insertDir fs.dirs }

/-- `ReportGenerator.__init__`: remembers `output_dir` and creates it
(with ancestors) idempotently. -/
def ReportGenerator.init (fs : FileSystem) (output_dir : String) : FileSystem :=
  mkdir_parents fs output_dir

/-- `open(filepath, 'w')` followed by a full write: the new content
shadows any previous file at that path. -/
def write_file (fs : FileSystem) (path content : String) : FileSystem :=
  { fs with files := (path, content) :: fs.files }

/-- Read back a file's current content. -/
def read_file (fs : FileSystem) (path : String) : Option String :=
  dictLookup fs.files path

/-- `ReportGenerator.save_report` on an already-serialized report text
(`json.dump` of the report dict): synthesize `report_<ts>.json` when no
name is given, write under `output_dir`, return the path. -/
def save_report (fs : FileSystem) (output_dir : String) (report_content : String)
    (filename : Option String) (now_ts : String) : FileSystem × String :=
  let name :=
    match filename with
    | none => "report_" ++ now_ts ++ ".json"
    | some f => f
  let filepath := output_dir ++ "/" ++ name
  (write_file fs filepath report_content, filepath)

/-- `ReportGenerator.save_csv_report`: synthesize `report_<ts>.csv` when
no name is given, render the history with `generate_csv_report`, write
under `output_dir`, return the path. -/
def save_csv_report (fs : FileSystem) (output_dir : String)
    (metrics_history : List RequestMetrics) (filename : Option String)
    (now_ts : String) : FileSystem × String :=
  let name :=
    match filename with
    | none => "report_" ++ now_ts ++ ".csv"
    | some f => f
  let filepath := output_dir ++ "/" ++ name
  let csv_content := generate_csv_report metrics_history
  (write_file fs filepath csv_content, filepath)

/-! ## Helper lemmas -/

lemma roundHalfEven_intCast (z : ℤ) : roundHalfEven (z : ℚ) = z := by
  unfold roundHalfEven
  rw [Int.floor_intCast]
  norm_num

lemma pyRound_eq_of_mul (q : ℚ) (n : ℕ) (z : ℤ) (h : q * 10 ^ n = (z : ℚ)) :
    pyRound q n = (z : ℚ) / 10 ^ n := by
  unfold pyRound
  rw [h, roundHalfEven_intCast]

/-- A sample usage record used to instantiate hypothesis-bearing theorems. -/
def sampleRecord : RequestMetrics :=
  { latency_seconds := 2
    input_tokens := 100
    output_tokens := 50
    total_tokens := 150
    estimated_cost_usd := 0
    finish_reason := "stop"
    timestamp := "2025-12-15T10:00:00"
    model := "gpt-4o-mini" }

/-- A second sample usage record with the same model as `sampleRecord`. -/
def sampleRecord2 : RequestMetrics :=
  { latency_seconds := 1
    input_tokens := 200
    output_tokens := 100
    total_tokens := 300
    estimated_cost_usd := 3/1000
    finish_reason := "length"
    timestamp := "2025-12-15T10:00:01"
    model := "gpt-4o-mini" }

/-- A tracker whose history holds exactly one record. -/
def tracker1 : MetricsTracker :=
  { start_time := none, metrics_history := [sampleRecord] }

/-! ## Claims -/

/-- C1: for every model present in the pricing table,
`calculate_cost` returns exactly `round((input/1000)*input_rate +
(output/1000)*output_rate, 6)` for that model's rates; for every model
absent from the table it returns exactly `0.0`.  The operation is a
total function of any string model and any integer token counts (it
never raises). -/
theorem calculate_cost_spec (model : String) (input_tokens output_tokens : ℤ) :
    (∀ rates, dictLookup PRICING model = some rates →
      calculate_cost model input_tokens output_tokens =
        pyRound ((input_tokens : ℚ) / 1000 * rates.input
          + (output_tokens : ℚ) / 1000 * rates.output) 6)
    ∧ (dictLookup PRICING model = none →
      calculate_cost model input_tokens output_tokens = 0) := by
  constructor
  · intro rates h
    simp [calculate_cost, h]
  · intro h
    simp [calculate_cost, h]

theorem calculate_cost_spec_witness :
    calculate_cost "gpt-4o" 1000 500 =
      pyRound ((1000 : ℤ) / 1000 * (25/10000) + ((500 : ℤ) : ℚ) / 1000 * (1/100)) 6
    ∧ calculate_cost "some-unknown-model" 1000 500 = 0 := by
  constructor
  · exact (calculate_cost_spec "gpt-4o" 1000 500).1
      { input := 25/10000, output := 1/100 } (by simp [PRICING, dictLookup])
  · exact (calculate_cost_spec "some-unknown-model" 1000 500).2
      (by simp [PRICING, dictLookup])

/-- C2 counterexample: on empty history the report's error marker is
the string `"No metrics data available"`, not `"no data available"` as
the claim states. -/
theorem generate_summary_report_empty_counterexample :
    generate_summary_report [] "2025-01-01T00:00:00"
      = SummaryReport.empty "No metrics data available" "2025-01-01T00:00:00"
    ∧ "No metrics data available" ≠ "no data available" := by
  exact ⟨rfl, by decide⟩

/-- C2 (amended): for the empty history, the report has exactly the
keys `error` and `generated_at` (no `summary` or `model_breakdown`),
the error marker being the string `"No metrics data available"` and the
timestamp the generation instant; no exception is raised (the function
is total). -/
theorem generate_summary_report_empty_spec (ts : String) :
    generate_summary_report [] ts = SummaryReport.empty "No metrics data available" ts := rfl

/-- C9: if no timer was started, `calculate_latency` returns exactly
`0.0` rather than raising; for a started timer it returns the seconds
since the start instant, rounded to 3 decimals. -/
theorem calculate_latency_spec (t : MetricsTracker) (now : ℚ) :
    (t.start_time = none → t.calculate_latency now = 0)
    ∧ (∀ s, t.start_time = some s → t.calculate_latency now = pyRound (now - s) 3) := by
  constructor
  · intro h
    simp [MetricsTracker.calculate_latency, h]
  · intro s h
    simp [MetricsTracker.calculate_latency, h]

theorem calculate_latency_spec_witness :
    MetricsTracker.calculate_latency { start_time := none, metrics_history := [] } 5 = 0
    ∧ MetricsTracker.calculate_latency { start_time := some 2, metrics_history := [] } 5
        = pyRound (5 - 2) 3 :=
  ⟨(calculate_latency_spec { start_time := none, metrics_history := [] } 5).1 rfl,
   (calculate_latency_spec { start_time := some 2, metrics_history := [] } 5).2 2 rfl⟩

/-- C8 counterexample: the tracker has a single shared `start_time`
slot (and the application routes every request through one global
tracker), so in the sequence start_A (t=1); start_B (t=2); elapsed_A
(t=3) the elapsed value observed for A is 1.0 s — measured from B's
start instant — not 2.0 s from A's own start, refuting the claimed
independence. -/
theorem start_overwrites_counterexample :
    ((MetricsTracker.init.start 1).start 2).calculate_latency 3 ≠ pyRound (3 - 1) 3
    ∧ ((MetricsTracker.init.start 1).start 2).calculate_latency 3 = pyRound (3 - 2) 3 := by
  have h1 : pyRound ((3 : ℚ) - 1) 3 = 2 := by
    rw [pyRound_eq_of_mul ((3 : ℚ) - 1) 3 2000 (by norm_num)]
    norm_num
  have h2 : pyRound ((3 : ℚ) - 2) 3 = 1 := by
    rw [pyRound_eq_of_mul ((3 : ℚ) - 2) 3 1000 (by norm_num)]
    norm_num
  constructor
  · simp only [MetricsTracker.init, MetricsTracker.start, MetricsTracker.calculate_latency,
      h1, h2]
    norm_num
  · simp only [MetricsTracker.init, MetricsTracker.start, MetricsTracker.calculate_latency]

/-- C8 (amended): `start` stores its instant in the tracker's single
shared `start_time` slot, so a later `start` on the same tracker resets
the instant from which every subsequent `calculate_latency` is
measured: after start_A; start_B, elapsed is measured from B's (the
most recent) start.  A single `start` does measure from its own
instant, so non-interference holds only across distinct tracker
instances, not for two in-flight requests sharing the global tracker. -/
theorem start_latest_wins (t : MetricsTracker) (a b now : ℚ) :
    ((t.start a).start b).calculate_latency now = pyRound (now - b) 3
    ∧ (t.start a).calculate_latency now = pyRound (now - a) 3 := by
  constructor <;>
    simp [MetricsTracker.start, MetricsTracker.calculate_latency]

/-- C4: one `create_metrics` call appends exactly one entry at the end
of the history; every previously stored record keeps its value and its
position and none is removed; and the returned record is the appended
one, carrying the cost computed by `calculate_cost` and the latency
computed by `calculate_latency`, with the supplied fields and the
current timestamp. -/
theorem create_metrics_spec (t : MetricsTracker) (model : String)
    (input_tokens output_tokens total_tokens : ℤ) (finish_reason : String)
    (now : ℚ) (ts : String) :
    (t.create_metrics model input_tokens output_tokens total_tokens finish_reason now ts).1.metrics_history
      = t.metrics_history
        ++ [(t.create_metrics model input_tokens output_tokens total_tokens finish_reason now ts).2]
    ∧ (t.create_metrics model input_tokens output_tokens total_tokens finish_reason now ts).1.metrics_history.length
        = t.metrics_history.length + 1
    ∧ (∀ i : ℕ, i < t.metrics_history.length →
        (t.create_metrics model input_tokens output_tokens total_tokens finish_reason now ts).1.metrics_history[i]?
          = t.metrics_history[i]?)
    ∧ (t.create_metrics model input_tokens output_tokens total_tokens finish_reason now ts).2
        = { latency_seconds := t.calculate_latency now
            input_tokens := input_tokens
            output_tokens := output_tokens
            total_tokens := total_tokens
            estimated_cost_usd := calculate_cost model input_tokens output_tokens
            finish_reason := finish_reason
            timestamp := ts
            model := model } := by
  refine ⟨rfl, ?_, ?_, rfl⟩
  · simp [MetricsTracker.create_metrics]
  · intro i h
    simp only [MetricsTracker.create_metrics]
    rw [List.getElem?_append, if_pos h]

theorem create_metrics_spec_witness :
    0 < tracker1.metrics_history.length
    ∧ (tracker1.create_metrics "gpt-4o" 10 20 30 "stop" 5 "T").1.metrics_history[0]?
        = tracker1.metrics_history[0]? := by
  refine ⟨by simp [tracker1], ?_⟩
  exact (create_metrics_spec tracker1 "gpt-4o" 10 20 30 "stop" 5 "T").2.2.1 0
    (by simp [tracker1])

/-- C5: after N ≥ 1 records, the summary holds the request count, the
token sum, the cost sum rounded to 6 decimals, the latency average
rounded to 3 decimals, and the duplicate-free collection of the
distinct models seen; on an empty history it is the absent marker
(`none`, modelling the empty dict), never a division-by-zero artifact. -/
theorem get_summary_statistics_spec (t : MetricsTracker) :
    (t.metrics_history = [] → t.get_summary_statistics = none)
    ∧ (t.metrics_history ≠ [] → ∃ s, t.get_summary_statistics = some s
        ∧ s.total_requests = t.metrics_history.length
        ∧ s.total_tokens = (t.metrics_history.map (·.total_tokens)).sum
        ∧ s.total_cost_usd = pyRound ((t.metrics_history.map (·.estimated_cost_usd)).sum) 6
        ∧ s.average_latency_seconds =
            pyRound ((t.metrics_history.map (·.latency_seconds)).sum
              / (t.metrics_history.length : ℚ)) 3
        ∧ s.models_used.Nodup
        ∧ ∀ m, m ∈ s.models_used ↔ ∃ r ∈ t.metrics_history, r.model = m) := by
  constructor
  · intro h
    simp [MetricsTracker.get_summary_statistics, h]
  · intro h
    unfold MetricsTracker.get_summary_statistics
    rw [if_neg h]
    refine ⟨_, rfl, rfl, rfl, rfl, rfl, List.nodup_dedup _, ?_⟩
    intro m
    simp [List.mem_dedup, List.mem_map]

theorem get_summary_statistics_spec_witness :
    MetricsTracker.get_summary_statistics { start_time := none, metrics_history := [] } = none
    ∧ ∃ s, tracker1.get_summary_statistics = some s
        ∧ s.total_requests = tracker1.metrics_history.length
        ∧ s.total_tokens = (tracker1.metrics_history.map (·.total_tokens)).sum
        ∧ s.total_cost_usd = pyRound ((tracker1.metrics_history.map (·.estimated_cost_usd)).sum) 6
        ∧ s.average_latency_seconds =
            pyRound ((tracker1.metrics_history.map (·.latency_seconds)).sum
              / (tracker1.metrics_history.length : ℚ)) 3
        ∧ s.models_used.Nodup
        ∧ ∀ m, m ∈ s.models_used ↔ ∃ r ∈ tracker1.metrics_history, r.model = m :=
  ⟨(get_summary_statistics_spec { start_time := none, metrics_history := [] }).1 rfl,
   (get_summary_statistics_spec tracker1).2 (by simp [tracker1])⟩

/-- C10: on the same non-empty records, the tracker's
`get_summary_statistics` and the generator's `generate_summary_report`
agree on every shared aggregate field: request count, total cost
rounded to 6 decimals, token total, and average latency rounded to 3
decimals. -/
theorem summary_report_agreement (t : MetricsTracker) (ts : String)
    (h : t.metrics_history ≠ []) :
    ∃ s sec bd, t.get_summary_statistics = some s
      ∧ generate_summary_report t.metrics_history ts = .full sec bd ts
      ∧ s.total_requests = sec.total_requests
      ∧ s.total_cost_usd = sec.total_cost_usd
      ∧ s.total_tokens = sec.total_tokens
      ∧ s.average_latency_seconds = sec.average_latency_seconds := by
  unfold MetricsTracker.get_summary_statistics generate_summary_report
  rw [if_neg h, if_neg h]
  exact ⟨_, _, _, rfl, rfl, rfl, rfl, rfl, rfl⟩

theorem summary_report_agreement_witness :
    ∃ s sec bd, tracker1.get_summary_statistics = some s
      ∧ generate_summary_report tracker1.metrics_history "T" = .full sec bd "T"
      ∧ s.total_requests = sec.total_requests
      ∧ s.total_cost_usd = sec.total_cost_usd
      ∧ s.total_tokens = sec.total_tokens
      ∧ s.average_latency_seconds = sec.average_latency_seconds :=
  summary_report_agreement tracker1 "T" (by simp [tracker1])

/-! ## Lemmas for the per-model breakdown (C3) -/

lemma dictLookup_map_bump (stats : List (String × ModelStats))
    (metric : RequestMetrics) (m : String) :
    dictLookup (stats.map (fun p => if p.1 = metric.model then (p.1, p.2.bump metric) else p)) m
      = if m = metric.model then (dictLookup stats m).map (fun s => s.bump metric)
        else dictLookup stats m := by
  induction stats with
  | nil =>
    simp only [List.map_nil, dictLookup]
    split <;> rfl
  | cons p t ih =>
    by_cases hc : p.1 = metric.model
    · by_cases hm : p.1 = m
      · subst hm
        simp [dictLookup, hc]
      · have h1 : ¬ metric.model = m := by rw [← hc]; exact hm
        simp [dictLookup, hc, hm, ih, h1, Ne.symm h1]
    · by_cases hm : p.1 = m
      · subst hm
        simp [dictLookup, hc, Ne.symm hc]
      · simp [dictLookup, hc, hm, ih]

lemma dictLookup_append {α : Type} (l1 l2 : List (String × α)) (m : String) :
    dictLookup (l1 ++ l2) m =
      match dictLookup l1 m with
      | some v => some v
      | none => dictLookup l2 m := by
  induction l1 with
  | nil => simp [dictLookup]
  | cons p t ih =>
    by_cases hm : p.1 = m <;> simp [dictLookup, hm, ih]

/-- The running total of one `model_stats` entry over a list of
records: the loop body applied record by record. -/
def statsAccum (s : ModelStats) (l : List RequestMetrics) : ModelStats :=
  l.foldl ModelStats.bump s

lemma statsAccum_spec (l : List RequestMetrics) (s : ModelStats) :
    statsAccum s l =
      { requests := s.requests + l.length
        total_cost := s.total_cost + (l.map (·.estimated_cost_usd)).sum
        total_tokens := s.total_tokens + (l.map (·.total_tokens)).sum } := by
  induction l generalizing s with
  | nil => simp [statsAccum]
  | cons r t ih =>
    show statsAccum (s.bump r) t = _
    rw [ih]
    simp only [ModelStats.bump, List.length_cons, List.map_cons, List.sum_cons,
      ModelStats.mk.injEq]
    refine ⟨by omega, by ring, by ring⟩

lemma dictLookup_stats_insert (acc : List (String × ModelStats))
    (r : RequestMetrics) (m : String) :
    dictLookup (stats_insert acc r) m =
      if m = r.model then
        some ((match dictLookup acc m with
               | some s => s
               | none => { requests := 0, total_cost := 0, total_tokens := 0 }).bump r)
      else dictLookup acc m := by
  unfold stats_insert
  cases hl : dictLookup acc r.model with
  | some s0 =>
    simp only [hl]
    rw [dictLookup_map_bump]
    by_cases hm : m = r.model
    · subst hm
      rw [if_pos rfl, if_pos rfl, hl]
      rfl
    · rw [if_neg hm, if_neg hm]
  | none =>
    simp only [hl]
    rw [dictLookup_map_bump, dictLookup_append]
    by_cases hm : m = r.model
    · subst hm
      rw [if_pos rfl, if_pos rfl, hl]
      simp [dictLookup]
    · rw [if_neg hm, if_neg hm]
      cases h2 : dictLookup acc m <;> simp [dictLookup, h2, Ne.symm hm]

lemma model_stats_lookup_aux (history : List RequestMetrics)
    (acc : List (String × ModelStats)) (m : String) :
    dictLookup (history.foldl stats_insert acc) m =
      match dictLookup acc m with
      | some s => some (statsAccum s (history.filter (fun r => r.model = m)))
      | none =>
        if history.filter (fun r => r.model = m) = [] then none
        else some (statsAccum { requests := 0, total_cost := 0, total_tokens := 0 }
          (history.filter (fun r => r.model = m))) := by
  induction history generalizing acc with
  | nil =>
    cases h : dictLookup acc m <;> simp [statsAccum, h]
  | cons r t ih =>
    rw [List.foldl_cons, ih, dictLookup_stats_insert]
    by_cases hm : m = r.model
    · subst hm
      rw [if_pos rfl]
      cases ha : dictLookup acc r.model <;>
        simp [ha, statsAccum, List.filter_cons]
    · rw [if_neg hm]
      have hf : (r :: t).filter (fun x => x.model = m) = t.filter (fun x => x.model = m) := by
        simp [List.filter_cons, Ne.symm hm]
      rw [hf]

lemma model_stats_lookup (history : List RequestMetrics) (m : String) :
    dictLookup (model_stats history) m =
      if history.filter (fun r => r.model = m) = [] then none
      else some { requests := (history.filter (fun r => r.model = m)).length
                  total_cost := ((history.filter (fun r => r.model = m)).map (·.estimated_cost_usd)).sum
                  total_tokens := ((history.filter (fun r => r.model = m)).map (·.total_tokens)).sum } := by
  rw [model_stats, model_stats_lookup_aux]
  simp [dictLookup, statsAccum_spec]

/-- C3: on a non-empty history the report's breakdown is keyed by exact
string equality on `model`; a model's entry counts one request per
record bearing that model and sums exactly those records' costs and
token totals (models never seen are absent); and the summary's
`average_cost_per_request` equals `round(total_cost / N, 6)`, the
division over `N = length ≥ 1`. -/
theorem generate_summary_report_breakdown (history : List RequestMetrics) (ts : String)
    (h : history ≠ []) :
    ∃ sec bd, generate_summary_report history ts = .full sec bd ts
      ∧ (∀ m, dictLookup bd m =
          if history.filter (fun r => r.model = m) = [] then none
          else some
            { requests := (history.filter (fun r => r.model = m)).length
              total_cost := ((history.filter (fun r => r.model = m)).map (·.estimated_cost_usd)).sum
              total_tokens := ((history.filter (fun r => r.model = m)).map (·.total_tokens)).sum })
      ∧ sec.average_cost_per_request =
          pyRound (((history.map (·.estimated_cost_usd)).sum) / (history.length : ℚ)) 6 := by
  unfold generate_summary_report
  rw [if_neg h]
  exact ⟨_, _, rfl, fun m => model_stats_lookup history m, rfl⟩

theorem generate_summary_report_breakdown_witness :
    ∃ sec bd, generate_summary_report [sampleRecord, sampleRecord2] "T" = .full sec bd "T"
      ∧ dictLookup bd "gpt-4o-mini" =
          some { requests := 2
                 total_cost := sampleRecord.estimated_cost_usd + sampleRecord2.estimated_cost_usd
                 total_tokens := sampleRecord.total_tokens + sampleRecord2.total_tokens }
      ∧ sec.average_cost_per_request =
          pyRound ((sampleRecord.estimated_cost_usd + sampleRecord2.estimated_cost_usd) / 2) 6 := by
  obtain ⟨sec, bd, h1, h2, h3⟩ :=
    generate_summary_report_breakdown [sampleRecord, sampleRecord2] "T" (by simp)
  refine ⟨sec, bd, h1, ?_, ?_⟩
  · rw [h2 "gpt-4o-mini"]
    simp [sampleRecord, sampleRecord2, List.filter_cons]
  · rw [h3]
    simp [sampleRecord, sampleRecord2]

/-! ## Lemmas for the CSV export (C6) -/

lemma intercalate_two (sep a b : String) :
    String.intercalate sep [a, b] = a ++ sep ++ b := by
  simp [String.intercalate, String.intercalate.go, String.append_assoc]

lemma intercalate_eight (sep a b c d e f g h : String) :
    String.intercalate sep [a, b, c, d, e, f, g, h] =
      a ++ sep ++ b ++ sep ++ c ++ sep ++ d ++ sep ++ e ++ sep ++ f ++ sep ++ g ++ sep ++ h := by
  simp [String.intercalate, String.intercalate.go, String.append_assoc]

lemma fracDigits_zero : fracDigits 0 17 = "" := by
  rw [show (17 : ℕ) = 16 + 1 from rfl]
  simp [fracDigits]

lemma pyStr_ofInt (z : ℤ) (hz : 0 ≤ z) : pyStr (z : ℚ) = toString z ++ ".0" := by
  have hz' : (0 : ℚ) ≤ (z : ℚ) := by exact_mod_cast hz
  simp [pyStr, abs_of_nonneg hz', not_lt.mpr hz', Int.floor_intCast, sub_self,
    fracDigits_zero, String.append_assoc]

/-- C6: `generate_csv_report` of an empty history is exactly the
literal `"No data available"`; otherwise it is the fixed header line
followed by one comma-joined line per record in history order, each
field converted to text in the fixed order timestamp, model,
input_tokens, output_tokens, total_tokens, latency_seconds,
estimated_cost, finish_reason, lines newline-joined — so a single
record gives a two-line string whose second line carries the record's
model and timestamp verbatim. -/
theorem generate_csv_report_spec :
    generate_csv_report [] = "No data available"
    ∧ (∀ history : List RequestMetrics, history ≠ [] →
        generate_csv_report history =
          String.intercalate "\n"
            ("timestamp,model,input_tokens,output_tokens,total_tokens,latency_seconds,estimated_cost_usd,finish_reason"
              :: history.map csv_line))
    ∧ (∀ metric : RequestMetrics, csv_line metric =
        metric.timestamp ++ "," ++ metric.model ++ "," ++ toString metric.input_tokens ++ ","
          ++ toString metric.output_tokens ++ "," ++ toString metric.total_tokens ++ ","
          ++ pyStr metric.latency_seconds ++ "," ++ pyStr metric.estimated_cost_usd ++ ","
          ++ metric.finish_reason)
    ∧ (∀ metric : RequestMetrics, generate_csv_report [metric] =
        "timestamp,model,input_tokens,output_tokens,total_tokens,latency_seconds,estimated_cost_usd,finish_reason"
          ++ "\n" ++ csv_line metric) := by
  refine ⟨rfl, ?_, ?_, ?_⟩
  · intro history h
    unfold generate_csv_report
    rw [if_neg h]
    rfl
  · intro metric
    rw [csv_line, intercalate_eight]
  · intro metric
    unfold generate_csv_report
    rw [if_neg (by simp), List.map_cons, List.map_nil, intercalate_two]
    rfl

theorem generate_csv_report_spec_witness :
    ([sampleRecord] : List RequestMetrics) ≠ []
    ∧ generate_csv_report [sampleRecord] =
        "timestamp,model,input_tokens,output_tokens,total_tokens,latency_seconds,estimated_cost_usd,finish_reason\n2025-12-15T10:00:00,gpt-4o-mini,100,50,150,2.0,0.0,stop" := by
  refine ⟨by simp, ?_⟩
  rw [generate_csv_report_spec.2.2.2 sampleRecord,
    generate_csv_report_spec.2.2.1 sampleRecord]
  have h2 : pyStr (sampleRecord.latency_seconds) = "2.0" := by
    rw [show sampleRecord.latency_seconds = ((2 : ℤ) : ℚ) by norm_num [sampleRecord]]
    rw [pyStr_ofInt 2 (by norm_num)]
    rfl
  have h0 : pyStr (sampleRecord.estimated_cost_usd) = "0.0" := by
    rw [show sampleRecord.estimated_cost_usd = ((0 : ℤ) : ℚ) by norm_num [sampleRecord]]
    rw [pyStr_ofInt 0 (by norm_num)]
    rfl
  rw [h2, h0]
  rfl

/-! ## Lemmas for directory creation (C7) -/

lemma insertDir_mem (ds : List String) (d : String) : d ∈ insertDir ds d := by
  unfold insertDir
  split
  · assumption
  · simp

lemma mem_insertDir_of_mem (ds : List String) (d x : String) (h : x ∈ ds) :
    x ∈ insertDir ds d := by
  unfold insertDir
  split
  · exact h
  · simp [h]

lemma mem_foldl_insertDir (l : List String) (ds : List String) (x : String)
    (h : x ∈ ds) : x ∈ l.foldl insertDir ds := by
  induction l generalizing ds with
  | nil => exact h
  | cons a t ih => exact ih _ (mem_insertDir_of_mem _ _ _ h)

lemma self_mem_foldl_insertDir (l : List String) (ds : List String) (x : String)
    (h : x ∈ l) : x ∈ l.foldl insertDir ds := by
  induction l generalizing ds with
  | nil => cases h
  | cons a t ih =>
    rcases List.mem_cons.mp h with rfl | h2
    · exact mem_foldl_insertDir t (insertDir ds x) x (insertDir_mem ds x)
    · exact ih (insertDir ds a) h2

lemma foldl_insertDir_of_subset (l : List String) (ds : List String)
    (h : ∀ x ∈ l, x ∈ ds) : l.foldl insertDir ds = ds := by
  induction l with
  | nil => rfl
  | cons a t ih =>
    rw [List.foldl_cons]
    have ha : insertDir ds a = ds := by
      unfold insertDir
      rw [if_pos (h a (List.mem_cons_self a t))]
    rw [ha]
    exact ih (fun x hx => h x (List.mem_cons_of_mem a hx))

lemma mkdir_parents_idem (fs : FileSystem) (d : String) :
    mkdir_parents (mkdir_parents fs d) d = mkdir_parents fs d := by
  unfold mkdir_parents
  simp only [FileSystem.mk.injEq, and_true]
  exact foldl_insertDir_of_subset _ _
    (fun x hx => self_mem_foldl_insertDir _ _ _ hx)

/-- C7: `save_report` and `save_csv_report` always return a path under
the configured output directory; with no caller-supplied name they
synthesize `report_<timestamp>` with the format's extension (`.json`
resp. `.csv`); the output directory (with ancestors) is created
idempotently; and reading the returned path back yields exactly the
content written there (the serialized report text, resp. the rendering
of the history by `generate_csv_report`). -/
theorem save_report_spec (fs : FileSystem) (output_dir report_content : String)
    (filename : Option String) (ts : String) (history : List RequestMetrics) :
    (∃ rest, (save_report fs output_dir report_content filename ts).2
        = output_dir ++ "/" ++ rest)
    ∧ read_file (save_report fs output_dir report_content filename ts).1
        (save_report fs output_dir report_content filename ts).2 = some report_content
    ∧ (filename = none → (save_report fs output_dir report_content filename ts).2
        = output_dir ++ "/" ++ ("report_" ++ ts ++ ".json"))
    ∧ (∃ rest, (save_csv_report fs output_dir history filename ts).2
        = output_dir ++ "/" ++ rest)
    ∧ read_file (save_csv_report fs output_dir history filename ts).1
        (save_csv_report fs output_dir history filename ts).2
        = some (generate_csv_report history)
    ∧ (filename = none → (save_csv_report fs output_dir history filename ts).2
        = output_dir ++ "/" ++ ("report_" ++ ts ++ ".csv"))
    ∧ ReportGenerator.init (ReportGenerator.init fs output_dir) output_dir
        = ReportGenerator.init fs output_dir := by
  refine ⟨⟨_, rfl⟩, ?_, ?_, ⟨_, rfl⟩, ?_, ?_, mkdir_parents_idem fs output_dir⟩
  · simp [save_report, read_file, write_file, dictLookup]
  · intro h
    subst h
    rfl
  · simp [save_csv_report, read_file, write_file, dictLookup]
  · intro h
    subst h
    rfl

theorem save_report_spec_witness :
    (∃ rest, (save_report ⟨[], []⟩ "reports/output" "CONTENT" none "20251215_100000").2
        = "reports/output" ++ "/" ++ rest)
    ∧ read_file (save_report ⟨[], []⟩ "reports/output" "CONTENT" none "20251215_100000").1
        (save_report ⟨[], []⟩ "reports/output" "CONTENT" none "20251215_100000").2
        = some "CONTENT"
    ∧ (save_report ⟨[], []⟩ "reports/output" "CONTENT" none "20251215_100000").2
        = "reports/output" ++ "/" ++ ("report_" ++ "20251215_100000" ++ ".json")
    ∧ (save_csv_report ⟨[], []⟩ "reports/output" [] none "20251215_100000").2
        = "reports/output" ++ "/" ++ ("report_" ++ "20251215_100000" ++ ".csv") := by
  obtain ⟨h1, h2, h3, _, _, h6, _⟩ :=
    save_report_spec ⟨[], []⟩ "reports/output" "CONTENT" none "20251215_100000" []
  exact ⟨h1, h2, h3 rfl, h6 rfl⟩
